import Mathlib

/-!
Formal model of the usbip-rs core: wire codec (fixed-capacity text fields,
operation headers), transport reply-header validation, the VHCI port-table
driver (refresh, free-port selection), the connection-record registry, and
the client attach/detach workflows.  Byte strings are modelled as
`List Nat` (each entry one byte); persisted text is modelled as `List Nat`
of Unicode scalar values.  Fallible Rust functions become `Option`/`Except`.
-/

/-- UTF-8 encoding of U+FFFD, the replacement character emitted by Rust's
lossy UTF-8 decoding for each invalid sequence. -/
def replacementBytes : List Nat := [0xEF, 0xBF, 0xBD]

/-- A UTF-8 continuation byte (0x80..0xBF). -/
def IsUtf8Cont (b : Nat) : Prop := 0x80 ≤ b ∧ b ≤ 0xBF

instance (b : Nat) : Decidable (IsUtf8Cont b) := by
  unfold IsUtf8Cont; infer_instance

/-- Admissible second byte of a three-byte sequence headed by `b0`
(per Rust core's UTF-8 validation table). -/
def IsUtf8Second3 (b0 b1 : Nat) : Prop :=
  (b0 = 0xE0 ∧ 0xA0 ≤ b1 ∧ b1 ≤ 0xBF) ∨
  (0xE1 ≤ b0 ∧ b0 ≤ 0xEC ∧ IsUtf8Cont b1) ∨
  (b0 = 0xED ∧ 0x80 ≤ b1 ∧ b1 ≤ 0x9F) ∨
  (0xEE ≤ b0 ∧ b0 ≤ 0xEF ∧ IsUtf8Cont b1)

instance (b0 b1 : Nat) : Decidable (IsUtf8Second3 b0 b1) := by
  unfold IsUtf8Second3; infer_instance

/-- Admissible second byte of a four-byte sequence headed by `b0`. -/
def IsUtf8Second4 (b0 b1 : Nat) : Prop :=
  (b0 = 0xF0 ∧ 0x90 ≤ b1 ∧ b1 ≤ 0xBF) ∨
  (0xF1 ≤ b0 ∧ b0 ≤ 0xF3 ∧ IsUtf8Cont b1) ∨
  (b0 = 0xF4 ∧ 0x80 ≤ b1 ∧ b1 ≤ 0x8F)

instance (b0 b1 : Nat) : Decidable (IsUtf8Second4 b0 b1) := by
  unfold IsUtf8Second4; infer_instance

/-- One step of Rust's UTF-8 decoding on input `b0 :: rest`, following the
validation table and error lengths of core's `run_utf8_validation`:
returns the emitted output bytes (the sequence itself, or U+FFFD for an
invalid maximal subpart), the remaining input, and whether the chunk was
valid. -/
def utf8Step (b0 : Nat) (rest : List Nat) : List Nat × List Nat × Bool :=
  if b0 < 0x80 then ([b0], rest, true)
  else if b0 < 0xC2 then (replacementBytes, rest, false)
  else if b0 ≤ 0xDF then
    match rest with
    | [] => (replacementBytes, [], false)
    | b1 :: rest1 =>
      if IsUtf8Cont b1 then ([b0, b1], rest1, true)
      else (replacementBytes, b1 :: rest1, false)
  else if b0 ≤ 0xEF then
    match rest with
    | [] => (replacementBytes, [], false)
    | b1 :: rest1 =>
      if IsUtf8Second3 b0 b1 then
        match rest1 with
        | [] => (replacementBytes, [], false)
        | b2 :: rest2 =>
          if IsUtf8Cont b2 then ([b0, b1, b2], rest2, true)
          else (replacementBytes, b2 :: rest2, false)
      else (replacementBytes, b1 :: rest1, false)
  else if b0 ≤ 0xF4 then
    match rest with
    | [] => (replacementBytes, [], false)
    | b1 :: rest1 =>
      if IsUtf8Second4 b0 b1 then
        match rest1 with
        | [] => (replacementBytes, [], false)
        | b2 :: rest2 =>
          if IsUtf8Cont b2 then
            match rest2 with
            | [] => (replacementBytes, [], false)
            | b3 :: rest3 =>
              if IsUtf8Cont b3 then ([b0, b1, b2, b3], rest3, true)
              else (replacementBytes, b3 :: rest3, false)
          else (replacementBytes, b2 :: rest2, false)
      else (replacementBytes, b1 :: rest1, false)
  else (replacementBytes, rest, false)

/-- Fuel-driven iteration of `utf8Step`; the fuel only bounds the number of
chunks (each chunk consumes at least one byte, so `l.length` fuel is always
enough). -/
def utf8LossyGo : Nat → List Nat → List Nat
  | 0, _ => []
  | _ + 1, [] => []
  | fuel + 1, b0 :: rest =>
    (utf8Step b0 rest).1 ++ utf8LossyGo fuel (utf8Step b0 rest).2.1

/-- Rust's `String::from_utf8_lossy` at the byte level: the output is the
UTF-8 encoding of the decoded string, with each invalid maximal subpart
replaced by one U+FFFD.  Models `CStr::to_string_lossy` in the attach
workflow. -/
def utf8Lossy (l : List Nat) : List Nat := utf8LossyGo l.length l

/-- Fuel-driven UTF-8 validation via `utf8Step`. -/
def validUtf8Go : Nat → List Nat → Bool
  | 0, _ => true
  | _ + 1, [] => true
  | fuel + 1, b0 :: rest =>
    (utf8Step b0 rest).2.2 && validUtf8Go fuel (utf8Step b0 rest).2.1

/-- Whether a byte sequence is valid UTF-8 (models `CStr::to_str(..).is_ok()`
and `str::from_utf8(..).is_ok()`). -/
def validUtf8 (l : List Nat) : Bool := validUtf8Go l.length l

/-! ### Wire codec (usbip/src/proto.rs) -/

def USBIP_VERSION : Nat := 0x0111

/-- Big-endian interpretation of a byte list. -/
def beNat (l : List Nat) : Nat := l.foldl (fun a b => a * 256 + b) 0

/-- OperationHeader: u16 version, u16 code, u32 status. -/
structure OperationHeader where
  version : Nat
  code : Nat
  status : Nat
deriving DecidableEq

/-- The derived big-endian decoding of the 8-byte operation header. -/
def OperationHeader.decodeBE (b : List Nat) : OperationHeader :=
  { version := beNat (b.take 2)
    code := beNat ((b.drop 2).take 2)
    status := beNat ((b.drop 4).take 4) }

inductive Direction
  | Request
  | Reply
deriving DecidableEq

/-- Direction::from_code: tests the 0x8000 direction bit. -/
def Direction.from_code (code : Nat) : Direction :=
  if code &&& 0x8000 = 0 then .Reply else .Request

inductive OperationKind
  | Unspecified
  | DeviceInfo
  | Import
  | Export
  | UnExport
  | EncryptionKey
  | ListDevices
deriving DecidableEq

/-- OperationKind::from_code on the low 15 bits. -/
def OperationKind.from_code (code : Nat) : Option OperationKind :=
  match code &&& 0x7FFF with
  | 0x00 => some .Unspecified
  | 0x02 => some .DeviceInfo
  | 0x03 => some .Import
  | 0x06 => some .Export
  | 0x07 => some .UnExport
  | 0x04 => some .EncryptionKey
  | 0x05 => some .ListDevices
  | _ => none

inductive OperationStatus
  | Ok
  | Failure
  | DeviceBusy
  | DeviceError
  | NoSuchDevice
  | Error
deriving DecidableEq

/-- OperationStatus::from_raw. -/
def OperationStatus.from_raw (value : Nat) : Option OperationStatus :=
  match value with
  | 0x00 => some .Ok
  | 0x01 => some .Failure
  | 0x02 => some .DeviceBusy
  | 0x03 => some .DeviceError
  | 0x04 => some .NoSuchDevice
  | 0x05 => some .Error
  | _ => none

inductive OperationError
  | RequestFailed
  | DeviceBusy
  | DeviceError
  | NoSuchDevice
  | VersionMismatch
  | DirectionMismatch
  | InvalidData
  | Other
deriving DecidableEq

/-- UsbIpSocket::recv_reply_header after the 8-byte header has been decoded:
the io layer (blocking exact-length reads) is orthogonal, so the model takes
the decoded header and returns the inner protocol result. -/
def recv_reply_header (kind : OperationKind) (header : OperationHeader) :
    Except OperationError Unit :=
  if header.version ≠ USBIP_VERSION then .error .VersionMismatch
  else if Direction.from_code header.code ≠ Direction.Reply then .error .DirectionMismatch
  else
    let kindOk : Bool :=
      match OperationKind.from_code header.code with
      | some .Unspecified => true
      | k => decide (k = some kind)
    if kindOk = false then .error .InvalidData
    else
      match (OperationStatus.from_raw header.status).getD OperationStatus.Error with
      | .Ok => .ok ()
      | .Failure => .error .RequestFailed
      | .DeviceBusy => .error .DeviceBusy
      | .DeviceError => .error .DeviceError
      | .NoSuchDevice => .error .NoSuchDevice
      | .Error => .error .Other

/-! ### Fixed-capacity text fields (proto/char_buf.rs) -/

/-- CharBuf: a fixed byte array of exactly N bytes holding a potentially
NUL-terminated string. -/
def CharBuf (N : Nat) := { l : List Nat // l.length = N }

instance (N : Nat) : DecidableEq (CharBuf N) :=
  inferInstanceAs (DecidableEq { l : List Nat // l.length = N })

/-- TryFrom for &str: fails when the byte length reaches the capacity,
otherwise pads the bytes with NULs.  value is the UTF-8 byte encoding of the
source string. -/
def CharBuf.tryFrom (N : Nat) (value : List Nat) : Option (CharBuf N) :=
  if h : N ≤ value.length then none
  else
    some ⟨value ++ List.replicate (N - value.length) 0, by
      simp only [List.length_append, List.length_replicate]; omega⟩

/-- CharBuf::new is TryFrom with the error discarded. -/
def CharBuf.new (N : Nat) (value : List Nat) : Option (CharBuf N) :=
  CharBuf.tryFrom N value

/-- CharBuf::as_c_str via CStr::from_bytes_until_nul: the bytes before the
first NUL, or none when no NUL exists in the buffer. -/
def CharBuf.as_c_str {N : Nat} (buf : CharBuf N) : Option (List Nat) :=
  if 0 ∈ buf.val then some (buf.val.takeWhile (fun b => b != 0)) else none

/-- EncodeBE for CharBuf: a raw copy of the buffer. -/
def CharBuf.encodeBE {N : Nat} (buf : CharBuf N) : List Nat := buf.val

/-- DecodeBE for CharBuf: a raw copy of the N input bytes. -/
def CharBuf.decodeBE (N : Nat) (bytes : List Nat) (h : bytes.length = N) : CharBuf N :=
  ⟨bytes, h⟩

def SYSFS_PATH_MAX : Nat := 256

def SYSFS_BUS_ID_SIZE : Nat := 32

/-! ### Device descriptors (proto/mod.rs, lib.rs) -/

inductive UsbSpeed
  | Unknown
  | Low
  | Full
  | High
  | Wireless
  | Super
deriving DecidableEq

/-- TryFromPrimitive for UsbSpeed (discriminants 0..5). -/
def UsbSpeed.fromRaw (value : Nat) : Option UsbSpeed :=
  match value with
  | 0 => some .Unknown
  | 1 => some .Low
  | 2 => some .Full
  | 3 => some .High
  | 4 => some .Wireless
  | 5 => some .Super
  | _ => none

/-- RawUsbDeviceInfo: the 312-byte wire form of a device descriptor. -/
structure RawUsbDeviceInfo where
  path : CharBuf SYSFS_PATH_MAX
  bus_id : CharBuf SYSFS_BUS_ID_SIZE
  bus_num : Nat
  dev_num : Nat
  speed : Nat
  id_vendor : Nat
  id_product : Nat
  bcd_device : Nat
  b_device_class : Nat
  b_device_sub_class : Nat
  b_device_protocol : Nat
  b_configuration_value : Nat
  b_num_configurations : Nat
  b_num_interfaces : Nat
deriving DecidableEq

/-- UsbDeviceInfo: the validated form; text fields hold the UTF-8 bytes of
the decoded strings. -/
structure UsbDeviceInfo where
  sys_path : List Nat
  bus_id : List Nat
  bus_num : Nat
  dev_num : Nat
  speed : UsbSpeed
  id_vendor : Nat
  id_product : Nat
  bcd_device : Nat
  b_device_class : Nat
  b_device_sub_class : Nat
  b_device_protocol : Nat
  b_configuration_value : Nat
  b_num_configurations : Nat
  b_num_interfaces : Nat
deriving DecidableEq

/-- TryFrom RawUsbDeviceInfo for UsbDeviceInfo: each text field must be
NUL-terminated and valid UTF-8, and the speed code must be known. -/
def UsbDeviceInfo.tryFromRaw (value : RawUsbDeviceInfo) : Option UsbDeviceInfo :=
  match value.path.as_c_str with
  | none => none
  | some sysPathBytes =>
    if validUtf8 sysPathBytes = false then none
    else
      match value.bus_id.as_c_str with
      | none => none
      | some busIdBytes =>
        if validUtf8 busIdBytes = false then none
        else
          match UsbSpeed.fromRaw value.speed with
          | none => none
          | some speed =>
            some
              { sys_path := sysPathBytes
                bus_id := busIdBytes
                bus_num := value.bus_num
                dev_num := value.dev_num
                speed := speed
                id_vendor := value.id_vendor
                id_product := value.id_product
                bcd_device := value.bcd_device
                b_device_class := value.b_device_class
                b_device_sub_class := value.b_device_sub_class
                b_device_protocol := value.b_device_protocol
                b_configuration_value := value.b_configuration_value
                b_num_configurations := value.b_num_configurations
                b_num_interfaces := value.b_num_interfaces }

/-! ### VHCI driver (src/drivers/vhci/mod.rs) -/

inductive HubSpeed
  | High
  | Super
deriving DecidableEq

inductive VhciDeviceStatus
  | NotConnected
  | NotAssigned
  | Used
  | Error
deriving DecidableEq

/-- TryFromPrimitive for VhciDeviceStatus (kernel codes 4..7). -/
def VhciDeviceStatus.fromRaw (value : Nat) : Option VhciDeviceStatus :=
  match value with
  | 4 => some .NotConnected
  | 5 => some .NotAssigned
  | 6 => some .Used
  | 7 => some .Error
  | _ => none

structure VhciImportedDevice where
  remote_device_id : Nat
  socket_fd : Nat
  device : UsbDeviceInfo
deriving DecidableEq

inductive VhciDeviceState
  | NotConnected
  | NotAssigned
  | Used (d : VhciImportedDevice)
  | Error (d : VhciImportedDevice)
deriving DecidableEq

structure VhciDevice where
  hub_speed : HubSpeed
  port : Nat
  state : VhciDeviceState
deriving DecidableEq

/-- The derived Default for VhciDevice (High is the default HubSpeed). -/
def VhciDevice.default : VhciDevice :=
  { hub_speed := .High, port := 0, state := .NotConnected }

/-- VhciDevice::status projects the state tag. -/
def VhciDevice.status (d : VhciDevice) : VhciDeviceStatus :=
  match d.state with
  | .NotConnected => .NotConnected
  | .NotAssigned => .NotAssigned
  | .Used _ => .Used
  | .Error _ => .Error

/-- The error kinds of the vhci driver that the modelled paths can produce
(payloads of the Rust variants dropped). -/
inductive VhciError
  | VhciDeviceMissingUdevAttribute
  | VhciDeviceUtf8UdevAttribute
  | VhciDeviceParsingUdevAttribute
  | ConflictingStatusData
  | NoFreePorts
  | QueryingLocalUsbDevice
  | SysfsPermissionDenied
  | SysfsIo
deriving DecidableEq

/-- VhciHcd snapshot state: total port count, controller count, and the
cached port table (len = num_ports at open). -/
structure VhciHcd where
  num_ports : Nat
  num_controllers : Nat
  virtual_devices : List VhciDevice
deriving DecidableEq

/-- total_port_count returns num_ports as u16 (the source casts the u32
down with `as _`). -/
def VhciHcd.total_port_count (hcd : VhciHcd) : Nat := hcd.num_ports % 65536

/-- One parsed line of a `status` attribute, per the sscanf grammar
hub(str) port(u16) status(u32) speed(u8) devid(hex u32) sockfd(u32) busid(str). -/
structure VhciHcdStatusLine where
  hub : String
  port : Nat
  status : Nat
  speed : Nat
  device_id : Nat
  socket_fd : Nat
  local_bus_id : String
deriving DecidableEq

/-- parse_vhci_hcd_status_attr: skips the header line and parses the rest.
A raw text line is represented by its sscanf parse outcome (`none` = the
line does not match the grammar), so this is just the header skip. -/
def parse_vhci_hcd_status_attr (text : List (Option VhciHcdStatusLine)) :
    List (Option VhciHcdStatusLine) :=
  text.drop 1

/-- The inner per-controller loop of refresh_improted_device_list over the
enumerated parse results: `j` is the per-controller enumerate index used to
index virtual_devices, `total_devices` the running cross-controller count.
`query` models udev device resolution (query_imported_device); `none` means
the query failed and the error propagates. -/
def refreshLines (query : String → Option UsbDeviceInfo) (num_ports : Nat) :
    List (Option VhciHcdStatusLine) → Nat → Nat → List VhciDevice →
    Except VhciError (Nat × List VhciDevice)
  | [], _, total_devices, devices => .ok (total_devices, devices)
  | r :: rest, j, total_devices, devices =>
    if num_ports ≤ total_devices then .error .ConflictingStatusData
    else
      match r with
      | none => .error .VhciDeviceParsingUdevAttribute
      | some status_line =>
        let hubSpeed? : Option HubSpeed :=
          if status_line.hub = "hs" then some .High
          else if status_line.hub = "ss" then some .Super
          else none
        match hubSpeed? with
        | none => .error .VhciDeviceParsingUdevAttribute
        | some speed =>
          if num_ports % 65536 ≤ status_line.port then .error .ConflictingStatusData
          else
            match VhciDeviceStatus.fromRaw status_line.status with
            | none => .error .VhciDeviceParsingUdevAttribute
            | some status =>
              let state? : Except VhciError VhciDeviceState :=
                match status with
                | .NotConnected => .ok .NotConnected
                | .NotAssigned => .ok .NotAssigned
                | .Used =>
                  match query status_line.local_bus_id with
                  | none => .error .QueryingLocalUsbDevice
                  | some device =>
                    .ok (.Used
                      { remote_device_id := status_line.device_id
                        socket_fd := status_line.socket_fd
                        device := device })
                | .Error =>
                  match query status_line.local_bus_id with
                  | none => .error .QueryingLocalUsbDevice
                  | some device =>
                    .ok (.Error
                      { remote_device_id := status_line.device_id
                        socket_fd := status_line.socket_fd
                        device := device })
              match state? with
              | .error e => .error e
              | .ok state =>
                refreshLines query num_ports rest (j + 1) (total_devices + 1)
                  (devices.set j
                    { hub_speed := speed, port := status_line.port, state := state })

/-- The outer controller loop of refresh_improted_device_list. -/
def refreshControllers (query : String → Option UsbDeviceInfo) (num_ports : Nat) :
    List (List (Option VhciHcdStatusLine)) → Nat → List VhciDevice →
    Except VhciError (Nat × List VhciDevice)
  | [], total_devices, devices => .ok (total_devices, devices)
  | attr :: restAttrs, total_devices, devices =>
    match refreshLines query num_ports (parse_vhci_hcd_status_attr attr) 0
        total_devices devices with
    | .error e => .error e
    | .ok (total2, devices2) =>
      refreshControllers query num_ports restAttrs total2 devices2

/-- refresh_improted_device_list: statusAttrs holds, per controller index,
the lines of that controller's status attribute text (reading the attribute
itself and its UTF-8 decoding are orthogonal io and not modelled). -/
def VhciHcd.refresh_improted_device_list (hcd : VhciHcd)
    (query : String → Option UsbDeviceInfo)
    (statusAttrs : List (List (Option VhciHcdStatusLine))) :
    Except VhciError VhciHcd :=
  match refreshControllers query hcd.num_ports statusAttrs 0 hcd.virtual_devices with
  | .error e => .error e
  | .ok (total_devices, devices) =>
    if total_devices < hcd.num_ports then .error .ConflictingStatusData
    else .ok { hcd with virtual_devices := devices }

/-- The scan loop of get_free_port: `remaining` counts the iterations left
of `for i in 0..num_ports` and `i` is the current index. -/
def getFreePortGo (speed : UsbSpeed) (devices : List VhciDevice) :
    Nat → Nat → Except VhciError Nat
  | 0, _ => .error .NoFreePorts
  | remaining + 1, i =>
    let device := devices.getD i VhciDevice.default
    let skip : Bool :=
      match speed with
      | .Super => decide (device.hub_speed ≠ HubSpeed.Super)
      | _ => decide (device.hub_speed ≠ HubSpeed.High)
    if skip then getFreePortGo speed devices remaining (i + 1)
    else if device.status = VhciDeviceStatus.NotConnected then .ok i
    else getFreePortGo speed devices remaining (i + 1)

/-- VhciHcd::get_free_port: first index whose slot has the hub class the
speed needs and is NotConnected. -/
def VhciHcd.get_free_port (hcd : VhciHcd) (speed : UsbSpeed) : Except VhciError Nat :=
  getFreePortGo speed hcd.virtual_devices hcd.num_ports 0

/-- Hub class a requested speed needs: Super for Super, High otherwise
(spec wording for the get_free_port claim). -/
def requiredHubClass (speed : UsbSpeed) : HubSpeed :=
  match speed with
  | .Super => .Super
  | _ => .High

/-- A slot get_free_port may select: compatible hub class and NotConnected
(spec wording for the get_free_port claim). -/
def IsFreeCompatible (speed : UsbSpeed) (d : VhciDevice) : Prop :=
  d.hub_speed = requiredHubClass speed ∧ d.status = VhciDeviceStatus.NotConnected

instance (speed : UsbSpeed) (d : VhciDevice) : Decidable (IsFreeCompatible speed d) := by
  unfold IsFreeCompatible; infer_instance

/-! ### Connection-record registry (src/drivers/vhci/state.rs) -/

/-- One registry file: its creation mode and its text content (Unicode
scalar values). -/
structure FileEntry where
  mode : Nat
  content : List Nat
deriving DecidableEq

/-- State of the /var/run/vhci_hcd registry directory: whether the state
path is absent (`none`), a directory (`some true`) or occupied by a
non-directory (`some false`); its mode; and the port files keyed by port
number (file `portN` is keyed by N). -/
structure FsState where
  statePath : Option Bool
  dirMode : Nat
  files : List (Nat × FileEntry)
deriving DecidableEq

inductive FsStateError
  | IoWrite
  | NotADirectory
  | IoRead (port : Nat)
  | Parsing (port : Nat)
  | IoRemove
deriving DecidableEq

/-- ConnectionRecord {host, tcp port, remote bus id}; text as Unicode
scalar values. -/
structure ConnectionRecord where
  host : List Nat
  port : Nat
  bus_id : List Nat
deriving DecidableEq

/-- Decimal digits of n, most significant first, with explicit fuel
(n + 1 is always enough fuel). -/
def decDigitsGo : Nat → Nat → List Nat
  | 0, _ => []
  | fuel + 1, n =>
    if n < 10 then [48 + n] else decDigitsGo fuel (n / 10) ++ [48 + n % 10]

/-- Decimal rendering of a number (the format of `{}` for integers) as a
list of digit code points. -/
def natDecDigits (n : Nat) : List Nat := decDigitsGo (n + 1) n

/-- The line save_connection_record writes: "host port bus_id\n". -/
def recordLine (record : ConnectionRecord) : List Nat :=
  record.host ++ [32] ++ natDecDigits record.port ++ [32] ++ record.bus_id ++ [10]

/-- save_connection_record: ensure the state directory exists (fail with
NotADirectory when a non-directory occupies the path), chmod it to 0o700,
then create/truncate the port file with creation mode 0o700 (the OS masks
creation modes with the umask, and an already existing file keeps its mode;
the model records the requested bits on creation) and write the record
line. -/
def save_connection_record (fs : FsState) (rh_port : Nat)
    (record : ConnectionRecord) : Except FsStateError FsState :=
  match fs.statePath with
  | some false => .error .NotADirectory
  | _ =>
    let entry : FileEntry :=
      match fs.files.lookup rh_port with
      | some old => { mode := old.mode, content := recordLine record }
      | none => { mode := 0o700, content := recordLine record }
    .ok
      { statePath := some true
        dirMode := 0o700
        files := (rh_port, entry) :: fs.files.filter (fun p => p.1 != rh_port) }

/-- The code points Rust's char::is_whitespace (Unicode White_Space)
accepts. -/
def rustWhitespaceList : List Nat :=
  [9, 10, 11, 12, 13, 32, 0x85, 0xA0, 0x1680,
   0x2000, 0x2001, 0x2002, 0x2003, 0x2004, 0x2005, 0x2006, 0x2007,
   0x2008, 0x2009, 0x200A, 0x2028, 0x2029, 0x202F, 0x205F, 0x3000]

def rustIsWhitespace (c : Nat) : Bool := rustWhitespaceList.contains c

/-- str::trim: drop leading and trailing whitespace. -/
def strTrim (l : List Nat) : List Nat :=
  ((l.dropWhile rustIsWhitespace).reverse.dropWhile rustIsWhitespace).reverse

/-- Split a line at each space character (the literal separator of the
record grammar). -/
def splitSpaces : List Nat → List (List Nat)
  | [] => [[]]
  | c :: rest =>
    match splitSpaces rest with
    | [] => [[]]
    | g :: gs => if c = 32 then [] :: g :: gs else (c :: g) :: gs

def isDecDigit (c : Nat) : Bool := decide (48 ≤ c) && decide (c ≤ 57)

/-- Numeric value of a decimal digit string. -/
def decValue (l : List Nat) : Nat := l.foldl (fun a c => a * 10 + (c - 48)) 0

/-- The record grammar sscanf!("{str} {u16} {str}"): three fields separated
by single spaces, each nonempty, the middle a decimal number fitting u16.
(On the lines arising here — fields that contain no space — the sscanf
regex match is exactly this split.) -/
def parseRecordLine (l : List Nat) : Option (List Nat × Nat × List Nat) :=
  match splitSpaces l with
  | [h, p, b] =>
    if h ≠ [] ∧ p ≠ [] ∧ b ≠ [] ∧ p.all isDecDigit ∧ decValue p < 65536 then
      some (h, decValue p, b)
    else none
  | _ => none

/-- read_connection_record: open and parse the port file; a missing file is
the IoRead error, unparsable content the Parsing error. -/
def read_connection_record (fs : FsState) (rh_port : Nat) :
    Except FsStateError ConnectionRecord :=
  match fs.files.lookup rh_port with
  | none => .error (.IoRead rh_port)
  | some entry =>
    match parseRecordLine (strTrim entry.content) with
    | none => .error (.Parsing rh_port)
    | some (h, p, b) => .ok { host := h, port := p, bus_id := b }

/-! ### Client workflows (src/client/attach.rs, src/client/detach.rs) -/

inductive AttachError
  | NetworkIo
  | BusIdTooLong
  | BusIdMismatch
  | Protocol
  | VhciHcdDriver (e : VhciError)
  | FsState
deriving DecidableEq

/-- Observable effects of the attach workflow past the reply checks. -/
inductive AttachEv
  | OpenVhci
  | KernelAttach (port : Nat)
  | SaveRecord (port : Nat)
deriving DecidableEq

/-- query_and_import: the Import request send (with the CharBuf length
check), the reply bus-id comparison via CStr::to_string_lossy, and the
descriptor validation, exactly as in the source; everything after the
checks (import_device: opening the VhciHcd, port selection, the kernel
attach) is the continuation `importDevice`, which reports its effects in
the event list, so the theorems hold for every continuation.  `busId` is
the UTF-8 byte encoding of the requested &str. -/
def query_and_import (busId : List Nat) (reply : RawUsbDeviceInfo)
    (importDevice : UsbDeviceInfo → Except AttachError Nat × List AttachEv) :
    Except AttachError Nat × List AttachEv :=
  match CharBuf.new SYSFS_BUS_ID_SIZE busId with
  | none => (.error .BusIdTooLong, [])
  | some _ =>
    match reply.bus_id.as_c_str with
    | none => (.error .BusIdMismatch, [])
    | some bid =>
      if utf8Lossy bid ≠ busId then (.error .BusIdMismatch, [])
      else
        match UsbDeviceInfo.tryFromRaw reply with
        | none => (.error .Protocol, [])
        | some device => importDevice device

/-- attach_device client workflow: query_and_import, then persist the
connection record for the allocated port. -/
def client_attach_device (busId : List Nat) (reply : RawUsbDeviceInfo)
    (importDevice : UsbDeviceInfo → Except AttachError Nat × List AttachEv)
    (fs : FsState) (record : ConnectionRecord) :
    Except AttachError Nat × FsState × List AttachEv :=
  match query_and_import busId reply importDevice with
  | (.error e, evs) => (.error e, fs, evs)
  | (.ok rh_port, evs) =>
    match save_connection_record fs rh_port record with
    | .error _ => (.error .FsState, fs, evs ++ [.SaveRecord rh_port])
    | .ok fs1 => (.ok rh_port, fs1, evs ++ [.SaveRecord rh_port])

inductive DetachError
  | VhciHcd (e : VhciError)
  | InvalidPortNumber
  | FsState
deriving DecidableEq

/-- Observable side effects of the detach workflow, in program order. -/
inductive DetachEv
  | RemoveFile (port : Nat)
  | RemoveDir
  | KernelDetach (port : Nat)
deriving DecidableEq

/-- delete_connection_record: remove the port file (a missing file is
tolerated), and optionally remove the state directory (tolerated when
missing or non-empty).  Events record the removal attempts in order. -/
def delete_connection_record (fs : FsState) (port : Nat)
    (remove_state_dir : Bool) : FsState × List DetachEv :=
  let fs1 : FsState := { fs with files := fs.files.filter (fun p => p.1 != port) }
  if remove_state_dir then
    if fs1.files = [] ∧ fs1.statePath = some true then
      ({ fs1 with statePath := none }, [.RemoveFile port, .RemoveDir])
    else (fs1, [.RemoveFile port, .RemoveDir])
  else (fs1, [.RemoveFile port])

/-- detach_device client workflow: hcd is the freshly opened, refreshed
controller snapshot.  The registry delete precedes the kernel detach write;
the event list records both in program order.  (The delete also removes the
state directory once empty, as the registry delete path does.) -/
def client_detach_device (hcd : VhciHcd) (fs : FsState) (port : Nat) :
    Except DetachError Unit × FsState × List DetachEv :=
  if hcd.total_port_count ≤ port then (.error .InvalidPortNumber, fs, [])
  else if hcd.virtual_devices.any
      (fun d => d.port == port && decide (d.status = VhciDeviceStatus.NotConnected)) then
    (.ok (), fs, [])
  else
    let res := delete_connection_record fs port true
    (.ok (), res.1, res.2 ++ [.KernelDetach port])

/-- Decidable equality for Except results, so concrete runs can be checked
by decide. -/
instance exceptDecEq {ε α : Type} [DecidableEq ε] [DecidableEq α] :
    DecidableEq (Except ε α) := fun a b =>
  match a, b with
  | .error e, .error f =>
    if h : e = f then isTrue (by rw [h])
    else isFalse (fun hh => h (Except.error.inj hh))
  | .ok x, .ok y =>
    if h : x = y then isTrue (by rw [h])
    else isFalse (fun hh => h (Except.ok.inj hh))
  | .error _, .ok _ => isFalse (fun hh => Except.noConfusion hh)
  | .ok _, .error _ => isFalse (fun hh => Except.noConfusion hh)

/-! ### Helper lemmas -/

theorem utf8Step_length_le (b0 : Nat) (rest : List Nat) :
    (utf8Step b0 rest).2.1.length ≤ rest.length := by
  rcases rest with _ | ⟨b1, _ | ⟨b2, _ | ⟨b3, rest3⟩⟩⟩ <;>
    simp only [utf8Step] <;> split_ifs <;>
    simp only [List.length_cons, List.length_nil] <;> omega

theorem utf8Step_append (b0 : Nat) (rest : List Nat)
    (h : (utf8Step b0 rest).2.2 = true) :
    (utf8Step b0 rest).1 ++ (utf8Step b0 rest).2.1 = b0 :: rest := by
  rcases rest with _ | ⟨b1, _ | ⟨b2, _ | ⟨b3, rest3⟩⟩⟩ <;>
    simp only [utf8Step] at h ⊢ <;> split_ifs at h ⊢ <;>
    simp_all only [List.cons_append, List.nil_append]

theorem utf8LossyGo_eq_self (fuel : Nat) :
    ∀ (l : List Nat), l.length ≤ fuel → validUtf8Go fuel l = true →
      utf8LossyGo fuel l = l := by
  induction fuel with
  | zero =>
    intro l hlen _
    cases l with
    | nil => rfl
    | cons b0 rest => simp at hlen
  | succ f ih =>
    intro l hlen hval
    cases l with
    | nil => rfl
    | cons b0 rest =>
      simp only [validUtf8Go, Bool.and_eq_true] at hval
      simp only [utf8LossyGo]
      have hs := utf8Step_length_le b0 rest
      simp only [List.length_cons] at hlen
      rw [ih _ (by omega) hval.2]
      exact utf8Step_append b0 rest hval.1

/-- A valid UTF-8 byte sequence decodes lossily to itself. -/
theorem utf8Lossy_eq_self_of_valid (l : List Nat) (h : validUtf8 l = true) :
    utf8Lossy l = l :=
  utf8LossyGo_eq_self l.length l (Nat.le_refl _) h

/-! ### C7 -/

/-- C7: for every N-byte input array, decoding it into a fixed-capacity
text field and re-encoding yields the identical bytes (both directions are
raw byte copies). -/
theorem C7_charbuf_decode_encode_roundtrip (N : Nat) (bytes : List Nat)
    (h : bytes.length = N) :
    CharBuf.encodeBE (CharBuf.decodeBE N bytes h) = bytes := rfl

/-- Witness for C7 at a concrete 4-byte array. -/
theorem C7_charbuf_decode_encode_roundtrip_witness :
    CharBuf.encodeBE (CharBuf.decodeBE 4 [1, 0, 2, 3] (by decide)) = [1, 0, 2, 3] :=
  C7_charbuf_decode_encode_roundtrip 4 [1, 0, 2, 3] (by decide)

/-! ### C6 -/

/-- C6: constructing a fixed-capacity text field from a string of byte
length ≥ N fails (CharBuf::new and TryFrom are the same check, total — no
panic, no truncation), and from any shorter string succeeds with the bytes
followed by NUL padding. -/
theorem C6_charbuf_new_length_check (N : Nat) (value : List Nat) :
    (N ≤ value.length →
      CharBuf.new N value = none ∧ CharBuf.tryFrom N value = none) ∧
    (value.length < N →
      (CharBuf.new N value).map Subtype.val =
        some (value ++ List.replicate (N - value.length) 0)) := by
  constructor
  · intro h
    unfold CharBuf.new CharBuf.tryFrom
    rw [dif_pos h]
    exact ⟨rfl, rfl⟩
  · intro h
    unfold CharBuf.new CharBuf.tryFrom
    rw [dif_neg (Nat.not_le.mpr h)]
    rfl

/-- Witness for C6: a 4-byte field rejects a 4-byte string and pads a
2-byte string. -/
theorem C6_charbuf_new_length_check_witness :
    CharBuf.new 4 [97, 98, 99, 100] = none ∧
    (CharBuf.new 4 [97, 98]).map Subtype.val =
      some ([97, 98] ++ List.replicate (4 - [97, 98].length) 0) :=
  ⟨((C6_charbuf_new_length_check 4 [97, 98, 99, 100]).1 (by decide)).1,
   (C6_charbuf_new_length_check 4 [97, 98]).2 (by decide)⟩

/-! ### C3 -/

/-- C3: for every 8-byte reply header, recv_reply_header checks in order:
wrong version gives VersionMismatch; the 0x8000 direction bit set gives
DirectionMismatch; an opcode that is neither the requested kind nor the
Unspecified wildcard (or not an opcode at all) gives InvalidData; statuses
1..5 map to RequestFailed, DeviceBusy, DeviceError, NoSuchDevice, Other,
and status 0 is the only success outcome. -/
theorem C3_recv_reply_header_checks (kind : OperationKind) (bytes : List Nat)
    (header : OperationHeader) (hdec : header = OperationHeader.decodeBE bytes)
    (hlen : bytes.length = 8) :
    (header.version ≠ USBIP_VERSION →
      recv_reply_header kind header = .error .VersionMismatch) ∧
    (header.version = USBIP_VERSION → header.code &&& 0x8000 ≠ 0 →
      recv_reply_header kind header = .error .DirectionMismatch) ∧
    (header.version = USBIP_VERSION → header.code &&& 0x8000 = 0 →
      ((∀ k, OperationKind.from_code header.code = some k →
          k ≠ OperationKind.Unspecified → k ≠ kind →
          recv_reply_header kind header = .error .InvalidData) ∧
       (OperationKind.from_code header.code = none →
          recv_reply_header kind header = .error .InvalidData))) ∧
    (header.version = USBIP_VERSION → header.code &&& 0x8000 = 0 →
      (OperationKind.from_code header.code = some OperationKind.Unspecified ∨
        OperationKind.from_code header.code = some kind) →
      ((recv_reply_header kind header = .ok () ↔ header.status = 0) ∧
       (header.status = 1 → recv_reply_header kind header = .error .RequestFailed) ∧
       (header.status = 2 → recv_reply_header kind header = .error .DeviceBusy) ∧
       (header.status = 3 → recv_reply_header kind header = .error .DeviceError) ∧
       (header.status = 4 → recv_reply_header kind header = .error .NoSuchDevice) ∧
       (header.status = 5 → recv_reply_header kind header = .error .Other))) ∧
    (recv_reply_header kind header = .ok () → header.status = 0) := by
  clear hdec hlen
  have hstatus : ∀ (h1 : OperationHeader), h1.version = USBIP_VERSION →
      h1.code &&& 0x8000 = 0 →
      (OperationKind.from_code h1.code = some OperationKind.Unspecified ∨
        OperationKind.from_code h1.code = some kind) →
      recv_reply_header kind h1 =
        match (OperationStatus.from_raw h1.status).getD OperationStatus.Error with
        | .Ok => .ok ()
        | .Failure => .error .RequestFailed
        | .DeviceBusy => .error .DeviceBusy
        | .DeviceError => .error .DeviceError
        | .NoSuchDevice => .error .NoSuchDevice
        | .Error => .error .Other := by
    intro h1 hv hc hk
    simp only [recv_reply_header, hv, Direction.from_code, hc]
    rcases hk with hk | hk <;> rw [hk] <;> simp
    cases kind <;> simp
  refine ⟨?_, ?_, ?_, ?_, ?_⟩
  · intro hv
    simp only [recv_reply_header]
    rw [if_pos hv]
  · intro hv hc
    simp only [recv_reply_header, hv, Direction.from_code, hc]
    simp
  · intro hv hc
    constructor
    · intro k hk hku hkk
      simp only [recv_reply_header, hv, Direction.from_code, hc, hk]
      cases k <;> simp_all
    · intro hk
      simp only [recv_reply_header, hv, Direction.from_code, hc, hk]
      simp
  · intro hv hc hk
    rw [hstatus header hv hc hk]
    obtain ⟨v, c, s⟩ := header
    refine ⟨?_, ?_, ?_, ?_, ?_, ?_⟩ <;>
      rcases s with _ | _ | _ | _ | _ | _ | m <;>
      simp [OperationStatus.from_raw]
  · intro hok
    by_cases hv : header.version = USBIP_VERSION
    · by_cases hc : header.code &&& 0x8000 = 0
      · by_cases hk : OperationKind.from_code header.code =
            some OperationKind.Unspecified ∨
            OperationKind.from_code header.code = some kind
        · rw [hstatus header hv hc hk] at hok
          obtain ⟨v, c, s⟩ := header
          rcases s with _ | _ | _ | _ | _ | _ | m <;>
            simp_all [OperationStatus.from_raw]
        · exfalso
          simp only [recv_reply_header, hv, Direction.from_code, hc] at hok
          push_neg at hk
          rcases h : OperationKind.from_code header.code with _ | k
          · simp_all
          · rw [h] at hok
            cases k <;> simp_all
      · simp [recv_reply_header, hv, Direction.from_code, hc] at hok
    · simp only [recv_reply_header] at hok
      rw [if_pos hv] at hok
      exact absurd hok (by simp)

/-- Witness for C3: an Import reply header with status 1 fails with
RequestFailed. -/
theorem C3_recv_reply_header_checks_witness :
    recv_reply_header OperationKind.Import
      (OperationHeader.decodeBE [1, 17, 0, 3, 0, 0, 0, 1]) =
      .error .RequestFailed :=
  ((C3_recv_reply_header_checks OperationKind.Import [1, 17, 0, 3, 0, 0, 0, 1]
        (OperationHeader.decodeBE [1, 17, 0, 3, 0, 0, 0, 1]) rfl (by decide)).2.2.2.1
      (by decide) (by decide) (Or.inr (by decide))).2.1 (by decide)

/-! ### C2 -/

theorem getFreePortGo_succ (speed : UsbSpeed) (devices : List VhciDevice)
    (r i : Nat) :
    getFreePortGo speed devices (r + 1) i =
      if IsFreeCompatible speed (devices.getD i VhciDevice.default) then .ok i
      else getFreePortGo speed devices r (i + 1) := by
  cases speed <;>
    simp only [getFreePortGo, IsFreeCompatible, requiredHubClass] <;>
    split_ifs <;> simp_all

theorem getFreePortGo_ok (speed : UsbSpeed) (devices : List VhciDevice) :
    ∀ (r i j : Nat), getFreePortGo speed devices r i = .ok j →
      i ≤ j ∧ j < i + r ∧
      IsFreeCompatible speed (devices.getD j VhciDevice.default) ∧
      ∀ k, i ≤ k → k < j →
        ¬ IsFreeCompatible speed (devices.getD k VhciDevice.default) := by
  intro r
  induction r with
  | zero => intro i j h; simp [getFreePortGo] at h
  | succ r ih =>
    intro i j h
    rw [getFreePortGo_succ] at h
    by_cases hc : IsFreeCompatible speed (devices.getD i VhciDevice.default)
    · rw [if_pos hc] at h
      cases h
      exact ⟨Nat.le_refl _, by omega, hc, fun k hik hki => absurd hik (by omega)⟩
    · rw [if_neg hc] at h
      obtain ⟨h1, h2, h3, h4⟩ := ih (i + 1) j h
      refine ⟨by omega, by omega, h3, ?_⟩
      intro k hik hkj
      rcases Nat.eq_or_lt_of_le hik with rfl | hlt
      · exact hc
      · exact h4 k (by omega) hkj

theorem getFreePortGo_err (speed : UsbSpeed) (devices : List VhciDevice) :
    ∀ (r i : Nat), getFreePortGo speed devices r i = .error .NoFreePorts ↔
      ∀ k, i ≤ k → k < i + r →
        ¬ IsFreeCompatible speed (devices.getD k VhciDevice.default) := by
  intro r
  induction r with
  | zero =>
    intro i
    constructor
    · intro _ k h1 h2
      omega
    · intro _
      rfl
  | succ r ih =>
    intro i
    rw [getFreePortGo_succ]
    by_cases hc : IsFreeCompatible speed (devices.getD i VhciDevice.default)
    · rw [if_pos hc]
      constructor
      · intro h
        exact absurd h (by simp)
      · intro h
        exact absurd hc (h i (Nat.le_refl _) (by omega))
    · rw [if_neg hc]
      rw [ih (i + 1)]
      constructor
      · intro h k h1 h2
        rcases Nat.eq_or_lt_of_le h1 with rfl | hlt
        · exact hc
        · exact h k (by omega) (by omega)
      · intro h k h1 h2
        exact h k (by omega) (by omega)

/-- C2: get_free_port returns the smallest index whose slot has the hub
class compatible with the requested speed (Super needs Super, anything else
needs High) and status NotConnected; it fails with NoFreePorts exactly when
no such slot exists below num_ports; and it is deterministic over an
unchanged table, so successive calls return equal (hence non-decreasing)
indices. -/
theorem C2_get_free_port_spec (hcd : VhciHcd) (speed : UsbSpeed)
    (hlen : hcd.virtual_devices.length = hcd.num_ports) :
    (∀ i, hcd.get_free_port speed = .ok i →
      i < hcd.num_ports ∧
      IsFreeCompatible speed (hcd.virtual_devices.getD i VhciDevice.default) ∧
      ∀ k, k < i →
        ¬ IsFreeCompatible speed (hcd.virtual_devices.getD k VhciDevice.default)) ∧
    (hcd.get_free_port speed = .error .NoFreePorts ↔
      ∀ k, k < hcd.num_ports →
        ¬ IsFreeCompatible speed (hcd.virtual_devices.getD k VhciDevice.default)) ∧
    (∀ i j, hcd.get_free_port speed = .ok i → hcd.get_free_port speed = .ok j →
      i ≤ j ∧ i = j) := by
  clear hlen
  refine ⟨?_, ?_, ?_⟩
  · intro i h
    obtain ⟨h1, h2, h3, h4⟩ := getFreePortGo_ok speed hcd.virtual_devices hcd.num_ports 0 i h
    exact ⟨by omega, h3, fun k hk => h4 k (Nat.zero_le _) hk⟩
  · have := getFreePortGo_err speed hcd.virtual_devices hcd.num_ports 0
    rw [VhciHcd.get_free_port, this]
    constructor
    · intro h k hk
      exact h k (Nat.zero_le _) (by omega)
    · intro h k _ hk
      exact h k (by omega)
  · intro i j hi hj
    rw [hi] at hj
    cases hj
    exact ⟨Nat.le_refl _, rfl⟩

/-- Witness for C2 on a two-port table whose first slot is occupied. -/
theorem C2_get_free_port_spec_witness :
    1 < (VhciHcd.mk 2 1
        [VhciDevice.mk .High 0 .NotAssigned, VhciDevice.mk .High 1 .NotConnected]).num_ports ∧
    IsFreeCompatible UsbSpeed.High
      ((VhciHcd.mk 2 1
        [VhciDevice.mk .High 0 .NotAssigned,
          VhciDevice.mk .High 1 .NotConnected]).virtual_devices.getD 1 VhciDevice.default) ∧
    ∀ k, k < 1 →
      ¬ IsFreeCompatible UsbSpeed.High
        ((VhciHcd.mk 2 1
          [VhciDevice.mk .High 0 .NotAssigned,
            VhciDevice.mk .High 1 .NotConnected]).virtual_devices.getD k VhciDevice.default) :=
  (C2_get_free_port_spec
      (VhciHcd.mk 2 1
        [VhciDevice.mk .High 0 .NotAssigned, VhciDevice.mk .High 1 .NotConnected])
      UsbSpeed.High (by decide)).1 1 rfl

/-! ### C1 -/

/-- C1: evaluating refresh on two controllers with one data line each and
num_ports = 2 (total line count matches, so refresh succeeds): the second
parsed line in scan order (hub ss, port 1) is written to slot 0 — the
per-controller enumerate index chooses the slot — overwriting the first
line's data, while slot 1 keeps its previous (default) contents; the table
the claim requires, slot 0 = first line and slot 1 = second line, is not
produced. -/
theorem C1_refresh_slot_assignment_bug :
    (VhciHcd.mk 2 2 [VhciDevice.default, VhciDevice.default]).refresh_improted_device_list
        (fun _ => none)
        [[none, some (VhciHcdStatusLine.mk "hs" 0 4 0 0 0 "1-1")],
         [none, some (VhciHcdStatusLine.mk "ss" 1 4 0 0 0 "1-2")]] =
      .ok (VhciHcd.mk 2 2
        [VhciDevice.mk .Super 1 .NotConnected, VhciDevice.default]) ∧
    (VhciHcd.mk 2 2 [VhciDevice.default, VhciDevice.default]).refresh_improted_device_list
        (fun _ => none)
        [[none, some (VhciHcdStatusLine.mk "hs" 0 4 0 0 0 "1-1")],
         [none, some (VhciHcdStatusLine.mk "ss" 1 4 0 0 0 "1-2")]] ≠
      .ok (VhciHcd.mk 2 2
        [VhciDevice.mk .High 0 .NotConnected, VhciDevice.mk .Super 1 .NotConnected]) := by
  constructor
  · rfl
  · decide

/-! ### C5 -/

theorem filter_lookup_ne {α β : Type} [DecidableEq α]
    (l : List (α × β)) (p q : α) (h : q ≠ p) :
    (l.filter (fun x => x.1 != p)).lookup q = l.lookup q := by
  induction l with
  | nil => rfl
  | cons a rest ih =>
    obtain ⟨k, v⟩ := a
    by_cases hp : k = p
    · have h1 : ((k, v).1 != p) = false := by simp [hp]
      have h2 : (q == k) = false := by
        subst hp
        simp [h]
      simp [List.filter_cons, h1, List.lookup, h2, ih]
    · have h1 : ((k, v).1 != p) = true := by simp [hp]
      by_cases hq : q = k
      · simp [List.filter_cons, h1, List.lookup, hq]
      · have h2 : (q == k) = false := by simp [hq]
        simp [List.filter_cons, h1, List.lookup, h2, ih]

theorem filter_lookup_self {α β : Type} [DecidableEq α]
    (l : List (α × β)) (p : α) :
    (l.filter (fun x => x.1 != p)).lookup p = none := by
  induction l with
  | nil => rfl
  | cons a rest ih =>
    obtain ⟨k, v⟩ := a
    by_cases hp : k = p
    · have h1 : ((k, v).1 != p) = false := by simp [hp]
      simp [List.filter_cons, h1, ih]
    · have h1 : ((k, v).1 != p) = true := by simp [hp]
      have h2 : (p == k) = false := by
        simp
        intro hh
        exact hp hh.symm
      simp [List.filter_cons, h1, List.lookup, h2, ih]

/-- C5: detach fails with the invalid-port error when the port is at least
the total port count; when the cached table already shows the port
NotConnected it succeeds with no registry change and no kernel write (so a
repeated call returns the same), and it never touches another port's file;
otherwise it removes exactly that port's registry record and the removal
strictly precedes the kernel detach write in the event order. -/
theorem C5_detach_spec (hcd : VhciHcd) (fs : FsState) (port : Nat) :
    (hcd.total_port_count ≤ port →
      client_detach_device hcd fs port = (.error .InvalidPortNumber, fs, [])) ∧
    (port < hcd.total_port_count →
      (∃ d ∈ hcd.virtual_devices, d.port = port ∧ d.status = .NotConnected) →
      client_detach_device hcd fs port = (.ok (), fs, []) ∧
      client_detach_device hcd ((client_detach_device hcd fs port).2.1) port =
        client_detach_device hcd fs port) ∧
    (port < hcd.total_port_count →
      (¬ ∃ d ∈ hcd.virtual_devices, d.port = port ∧ d.status = .NotConnected) →
      (client_detach_device hcd fs port).1 = .ok () ∧
      ((client_detach_device hcd fs port).2.1).files.lookup port = none ∧
      (∀ q, q ≠ port →
        ((client_detach_device hcd fs port).2.1).files.lookup q = fs.files.lookup q) ∧
      ∃ evs1,
        (client_detach_device hcd fs port).2.2 =
          DetachEv.RemoveFile port :: evs1 ++ [DetachEv.KernelDetach port] ∧
        DetachEv.KernelDetach port ∉ DetachEv.RemoveFile port :: evs1) := by
  have hany : ∀ (l : List VhciDevice),
      (l.any (fun d => d.port == port && decide (d.status = VhciDeviceStatus.NotConnected))
        = true) ↔ ∃ d ∈ l, d.port = port ∧ d.status = .NotConnected := by
    intro l
    simp [List.any_eq_true, Bool.and_eq_true, and_assoc]
  refine ⟨?_, ?_, ?_⟩
  · intro h
    simp only [client_detach_device, if_pos h]
  · intro hlt hex
    have h1 : client_detach_device hcd fs port = (.ok (), fs, []) := by
      simp only [client_detach_device]
      rw [if_neg (by omega : ¬ hcd.total_port_count ≤ port),
        if_pos ((hany hcd.virtual_devices).mpr hex)]
    rw [h1]
    exact ⟨rfl, h1⟩
  · intro hlt hnex
    have h2 : ¬ (hcd.virtual_devices.any
        (fun d => d.port == port && decide (d.status = VhciDeviceStatus.NotConnected))
          = true) := fun h => hnex ((hany hcd.virtual_devices).mp h)
    have hrun : client_detach_device hcd fs port =
        (.ok (), (delete_connection_record fs port true).1,
          (delete_connection_record fs port true).2 ++ [DetachEv.KernelDetach port]) := by
      simp only [client_detach_device]
      rw [if_neg (by omega : ¬ hcd.total_port_count ≤ port), if_neg h2]
    rw [hrun]
    have hfiles : (delete_connection_record fs port true).1.files =
        fs.files.filter (fun p => p.1 != port) := by
      simp only [delete_connection_record]
      split_ifs <;> rfl
    have hevs : (delete_connection_record fs port true).2 =
        [DetachEv.RemoveFile port, DetachEv.RemoveDir] := by
      simp only [delete_connection_record]
      split_ifs <;> rfl
    refine ⟨rfl, ?_, ?_, ?_⟩
    · rw [hfiles]
      exact filter_lookup_self fs.files port
    · intro q hq
      rw [hfiles]
      exact filter_lookup_ne fs.files port q hq
    · refine ⟨[DetachEv.RemoveDir], ?_, ?_⟩
      · rw [hevs]
      · simp

/-- Witness for C5 on a two-port table (port 1 already NotConnected, port 0
occupied) with registry files for both ports: detaching port 1 changes
nothing; detaching port 0 removes exactly the port-0 file. -/
theorem C5_detach_spec_witness :
    client_detach_device
        (VhciHcd.mk 2 1
          [VhciDevice.mk .High 0 .NotAssigned, VhciDevice.mk .High 1 .NotConnected])
        (FsState.mk (some true) 0o700
          [(0, FileEntry.mk 0o700 [104]), (1, FileEntry.mk 0o700 [105])]) 1 =
      (.ok (),
        FsState.mk (some true) 0o700
          [(0, FileEntry.mk 0o700 [104]), (1, FileEntry.mk 0o700 [105])], []) ∧
    ((client_detach_device
        (VhciHcd.mk 2 1
          [VhciDevice.mk .High 0 .NotAssigned, VhciDevice.mk .High 1 .NotConnected])
        (FsState.mk (some true) 0o700
          [(0, FileEntry.mk 0o700 [104]), (1, FileEntry.mk 0o700 [105])]) 0).2.1).files.lookup 0
      = none ∧
    ((client_detach_device
        (VhciHcd.mk 2 1
          [VhciDevice.mk .High 0 .NotAssigned, VhciDevice.mk .High 1 .NotConnected])
        (FsState.mk (some true) 0o700
          [(0, FileEntry.mk 0o700 [104]), (1, FileEntry.mk 0o700 [105])]) 0).2.1).files.lookup 1
      = (FsState.mk (some true) 0o700
          [(0, FileEntry.mk 0o700 [104]), (1, FileEntry.mk 0o700 [105])]).files.lookup 1 :=
  ⟨((C5_detach_spec
      (VhciHcd.mk 2 1
        [VhciDevice.mk .High 0 .NotAssigned, VhciDevice.mk .High 1 .NotConnected])
      (FsState.mk (some true) 0o700
        [(0, FileEntry.mk 0o700 [104]), (1, FileEntry.mk 0o700 [105])]) 1).2.1
      (by decide) (by decide)).1,
   ((C5_detach_spec
      (VhciHcd.mk 2 1
        [VhciDevice.mk .High 0 .NotAssigned, VhciDevice.mk .High 1 .NotConnected])
      (FsState.mk (some true) 0o700
        [(0, FileEntry.mk 0o700 [104]), (1, FileEntry.mk 0o700 [105])]) 0).2.2
      (by decide) (by decide)).2.1,
   (((C5_detach_spec
      (VhciHcd.mk 2 1
        [VhciDevice.mk .High 0 .NotAssigned, VhciDevice.mk .High 1 .NotConnected])
      (FsState.mk (some true) 0o700
        [(0, FileEntry.mk 0o700 [104]), (1, FileEntry.mk 0o700 [105])]) 0).2.2
      (by decide) (by decide)).2.2.1 1 (by decide))⟩

/-! ### C4 -/

/-- C4 (amended): for a well-formed requested bus id (valid UTF-8, shorter
than the 32-byte field), whenever the reply's bus_id field has no NUL
terminator, or its NUL-terminated content is valid UTF-8 and differs
byte-for-byte from the requested bus id, attach fails with the
bus-id-mismatch error before opening the virtual host controller — no
event (vhci open, port attach, record save) occurs and the registry is
unchanged, whatever the rest of the workflow would do; and when the content
equals the requested bus id the mismatch check passes and the workflow
continues with descriptor validation.  (The code compares the lossily
decoded content, which on valid UTF-8 is byte-for-byte comparison.) -/
theorem C4_attach_bus_id_mismatch (busId : List Nat) (reply : RawUsbDeviceInfo)
    (importDevice : UsbDeviceInfo → Except AttachError Nat × List AttachEv)
    (fs : FsState) (record : ConnectionRecord)
    (hvalid : validUtf8 busId = true) (hlen : busId.length < 32) :
    (reply.bus_id.as_c_str = none →
      client_attach_device busId reply importDevice fs record =
        (.error .BusIdMismatch, fs, [])) ∧
    (∀ bid, reply.bus_id.as_c_str = some bid → validUtf8 bid = true → bid ≠ busId →
      client_attach_device busId reply importDevice fs record =
        (.error .BusIdMismatch, fs, [])) ∧
    (∀ bid, reply.bus_id.as_c_str = some bid → bid = busId →
      query_and_import busId reply importDevice =
        match UsbDeviceInfo.tryFromRaw reply with
        | none => (.error .Protocol, [])
        | some device => importDevice device) := by
  have hnew : ∃ cb, CharBuf.new SYSFS_BUS_ID_SIZE busId = some cb := by
    unfold CharBuf.new CharBuf.tryFrom
    rw [dif_neg (by simp [SYSFS_BUS_ID_SIZE]; omega)]
    exact ⟨_, rfl⟩
  obtain ⟨cb, hnew⟩ := hnew
  refine ⟨?_, ?_, ?_⟩
  · intro hnone
    simp only [client_attach_device, query_and_import, hnew, hnone]
  · intro bid hbid hbvalid hbne
    have hlossy : utf8Lossy bid = bid := utf8Lossy_eq_self_of_valid bid hbvalid
    simp only [client_attach_device, query_and_import, hnew, hbid]
    rw [if_pos (by rw [hlossy]; exact hbne)]
  · intro bid hbid hbeq
    subst hbeq
    have hlossy : utf8Lossy bid = bid := utf8Lossy_eq_self_of_valid bid hvalid
    simp only [query_and_import, hnew, hbid]
    rw [if_neg (by rw [hlossy]; simp)]

set_option maxRecDepth 4096 in
/-- C4 counterexample: requested bus id "�" (UTF-8 bytes EF BF BD,
which CharBuf::new accepts), reply bus_id field holding the single invalid
byte FF before the NUL padding.  The field content [FF] is not
byte-for-byte equal to the requested bytes, yet attach does not fail with
the bus-id-mismatch error: the lossy decoding of [FF] equals "�", the
check passes, and the run fails later with the descriptor-validation
(Protocol) error instead. -/
theorem C4_attach_bus_id_mismatch_counterexample :
    (RawUsbDeviceInfo.mk ⟨List.replicate 256 0, by rw [List.length_replicate]; rfl⟩
        ⟨0xFF :: List.replicate 31 0, by rw [List.length_cons, List.length_replicate]; rfl⟩
        0 0 0 0 0 0 0 0 0 0 0 0).bus_id.as_c_str = some [0xFF] ∧
    [0xFF] ≠ replacementBytes ∧
    replacementBytes.length < 32 ∧
    client_attach_device replacementBytes
        (RawUsbDeviceInfo.mk ⟨List.replicate 256 0, by rw [List.length_replicate]; rfl⟩
          ⟨0xFF :: List.replicate 31 0, by rw [List.length_cons, List.length_replicate]; rfl⟩
          0 0 0 0 0 0 0 0 0 0 0 0)
        (fun _ => (.ok 0, [AttachEv.OpenVhci]))
        (FsState.mk none 0 []) (ConnectionRecord.mk [] 0 []) =
      (.error .Protocol, FsState.mk none 0 [], []) ∧
    client_attach_device replacementBytes
        (RawUsbDeviceInfo.mk ⟨List.replicate 256 0, by rw [List.length_replicate]; rfl⟩
          ⟨0xFF :: List.replicate 31 0, by rw [List.length_cons, List.length_replicate]; rfl⟩
          0 0 0 0 0 0 0 0 0 0 0 0)
        (fun _ => (.ok 0, [AttachEv.OpenVhci]))
        (FsState.mk none 0 []) (ConnectionRecord.mk [] 0 []) ≠
      (.error .BusIdMismatch, FsState.mk none 0 [], []) := by
  refine ⟨by decide, by decide, by decide, by decide, by decide⟩

/-- Witness for C4: requesting bus id "a" while the reply carries "b" fails
with BusIdMismatch, leaving the registry untouched and no events. -/
theorem C4_attach_bus_id_mismatch_witness :
    client_attach_device [97]
        (RawUsbDeviceInfo.mk ⟨List.replicate 256 0, by rw [List.length_replicate]; rfl⟩
          ⟨98 :: List.replicate 31 0, by rw [List.length_cons, List.length_replicate]; rfl⟩
          0 0 0 0 0 0 0 0 0 0 0 0)
        (fun _ => (.ok 0, [AttachEv.OpenVhci]))
        (FsState.mk none 0 []) (ConnectionRecord.mk [] 0 []) =
      (.error .BusIdMismatch, FsState.mk none 0 [], []) :=
  (C4_attach_bus_id_mismatch [97]
      (RawUsbDeviceInfo.mk ⟨List.replicate 256 0, by rw [List.length_replicate]; rfl⟩
        ⟨98 :: List.replicate 31 0, by rw [List.length_cons, List.length_replicate]; rfl⟩
        0 0 0 0 0 0 0 0 0 0 0 0)
      (fun _ => (.ok 0, [AttachEv.OpenVhci]))
      (FsState.mk none 0 []) (ConnectionRecord.mk [] 0 [])
      (by decide) (by decide)).2.1 [98] (by decide) (by decide) (by decide)

/-! ### C8 -/

theorem decValue_append_digit (xs : List Nat) (d : Nat) :
    decValue (xs ++ [d]) = decValue xs * 10 + (d - 48) := by
  simp [decValue, List.foldl_append]

theorem decDigitsGo_spec : ∀ (f n : Nat), 0 < f → n < 10 ^ f →
    decDigitsGo f n ≠ [] ∧ (∀ c ∈ decDigitsGo f n, 48 ≤ c ∧ c ≤ 57) ∧
      decValue (decDigitsGo f n) = n := by
  intro f
  induction f with
  | zero => intro n h; omega
  | succ f ih =>
    intro n _ hn
    by_cases hsmall : n < 10
    · refine ⟨by simp [decDigitsGo, hsmall], ?_, ?_⟩
      · intro c hc
        simp [decDigitsGo, hsmall] at hc
        omega
      · simp [decDigitsGo, hsmall, decValue]
    · have hf : 0 < f := by
        rcases Nat.eq_zero_or_pos f with rfl | h
        · simp at hn
          omega
        · exact h
      have hdiv : n / 10 < 10 ^ f := by
        have h10 : 10 ^ (f + 1) = 10 ^ f * 10 := by ring
        rw [h10] at hn
        omega
      obtain ⟨h1, h2, h3⟩ := ih (n / 10) hf hdiv
      rw [show decDigitsGo (f + 1) n = decDigitsGo f (n / 10) ++ [48 + n % 10] by
        simp [decDigitsGo, hsmall]]
      refine ⟨by simp, ?_, ?_⟩
      · intro c hc
        rcases List.mem_append.mp hc with h | h
        · exact h2 c h
        · simp at h
          omega
      · rw [decValue_append_digit, h3]
        omega

theorem natDecDigits_spec (n : Nat) :
    natDecDigits n ≠ [] ∧ (∀ c ∈ natDecDigits n, 48 ≤ c ∧ c ≤ 57) ∧
      decValue (natDecDigits n) = n := by
  have h : n < 10 ^ (n + 1) := by
    calc n < 10 ^ n := Nat.lt_pow_self (by omega) n
    _ ≤ 10 ^ (n + 1) := Nat.pow_le_pow_right (by omega) (by omega)
  exact decDigitsGo_spec (n + 1) n (by omega) h

theorem digit_not_whitespace : ∀ c, 48 ≤ c → c ≤ 57 → rustIsWhitespace c = false := by
  have h : ∀ c < 58, 48 ≤ c → rustIsWhitespace c = false := by decide
  intro c h1 h2
  exact h c (by omega) h1

theorem not_space_of_not_whitespace {c : Nat} (h : rustIsWhitespace c = false) :
    c ≠ 32 := by
  intro hc
  subst hc
  exact absurd h (by decide)

theorem splitSpaces_ne_nil (l : List Nat) : splitSpaces l ≠ [] := by
  cases l with
  | nil => simp [splitSpaces]
  | cons c rest =>
    simp only [splitSpaces]
    rcases splitSpaces rest with _ | ⟨g, gs⟩
    · simp
    · split_ifs <;> simp

theorem splitSpaces_no_space (a : List Nat) (h : ∀ c ∈ a, c ≠ 32) :
    splitSpaces a = [a] := by
  induction a with
  | nil => rfl
  | cons c rest ih =>
    have hc : c ≠ 32 := h c (by simp)
    have hrest := ih (fun x hx => h x (by simp [hx]))
    simp only [splitSpaces, hrest]
    rw [if_neg hc]

theorem splitSpaces_append (a rest : List Nat) (h : ∀ c ∈ a, c ≠ 32) :
    splitSpaces (a ++ 32 :: rest) = a :: splitSpaces rest := by
  induction a with
  | nil =>
    simp only [List.nil_append, splitSpaces]
    rcases hs : splitSpaces rest with _ | ⟨g, gs⟩
    · exact absurd hs (splitSpaces_ne_nil rest)
    · simp
  | cons c t ih =>
    have hc : c ≠ 32 := h c (by simp)
    have ht := ih (fun x hx => h x (by simp [hx]))
    simp only [List.cons_append, splitSpaces, List.append_eq, ht]
    rw [if_neg hc]

theorem dropWhile_cons_of_neg {c : Nat} (l : List Nat)
    (h : rustIsWhitespace c = false) :
    (c :: l).dropWhile rustIsWhitespace = c :: l := by
  simp [List.dropWhile_cons, h]

theorem trim_end_of_last_solid (P B : List Nat) (hB : B ≠ [])
    (hw : ∀ c ∈ B, rustIsWhitespace c = false) :
    (((P ++ B) ++ [10]).reverse.dropWhile rustIsWhitespace).reverse = P ++ B := by
  have h1 : ((P ++ B) ++ [10]).reverse = 10 :: (B.reverse ++ P.reverse) := by
    simp [List.reverse_append]
  rw [h1]
  have h2 : rustIsWhitespace 10 = true := by decide
  simp only [List.dropWhile_cons, h2, if_true]
  rcases hrB : B.reverse with _ | ⟨cb, tb⟩
  · exact absurd (List.reverse_eq_nil_iff.mp hrB) hB
  have hcb : cb ∈ B := List.mem_reverse.mp (by rw [hrB]; simp)
  have hBeq : B = (cb :: tb).reverse := by rw [← hrB, List.reverse_reverse]
  rw [List.cons_append]
  rw [dropWhile_cons_of_neg _ (hw cb hcb)]
  rw [hBeq]
  simp [List.reverse_append, List.append_assoc]

/-- str::trim of a record line whose host and bus id are nonempty and
whitespace-free drops exactly the trailing newline. -/
theorem strTrim_sandwich (H D B : List Nat) (hH : H ≠ []) (hB : B ≠ [])
    (hwH : ∀ c ∈ H, rustIsWhitespace c = false)
    (hwB : ∀ c ∈ B, rustIsWhitespace c = false) :
    strTrim (H ++ 32 :: (D ++ 32 :: (B ++ [10]))) = H ++ 32 :: (D ++ 32 :: B) := by
  unfold strTrim
  rcases H with _ | ⟨c0, t0⟩
  · exact absurd rfl hH
  have hc0 : rustIsWhitespace c0 = false := hwH c0 (by simp)
  rw [List.cons_append, dropWhile_cons_of_neg _ hc0, ← List.cons_append]
  have hshape : (c0 :: t0) ++ 32 :: (D ++ 32 :: (B ++ [10])) =
      (((c0 :: t0) ++ 32 :: D ++ [32]) ++ B) ++ [10] := by
    simp [List.append_assoc]
  rw [hshape, trim_end_of_last_solid _ _ hB hwB]
  simp [List.append_assoc]

/-- C8 (amended): for every connection record whose host and bus id are
nonempty and contain no whitespace and whose port fits u16, saving the
record for a port and then reading that port back returns the identical
{host, tcp_port, bus_id} triple.  (Nonemptiness is required: an empty host
or bus id writes a line that does not re-parse, since the grammar needs
three nonempty fields and the trim step eats the leading separator.) -/
theorem C8_record_roundtrip_amended (fs : FsState) (p : Nat) (r : ConnectionRecord)
    (hh : r.host ≠ []) (hb : r.bus_id ≠ [])
    (hwh : ∀ c ∈ r.host, rustIsWhitespace c = false)
    (hwb : ∀ c ∈ r.bus_id, rustIsWhitespace c = false)
    (hport : r.port < 65536) :
    ∀ fs', save_connection_record fs p r = .ok fs' →
      read_connection_record fs' p = .ok r := by
  intro fs' hsave
  have hfiles : ∃ m, fs'.files = (p, FileEntry.mk m (recordLine r)) ::
      fs.files.filter (fun q => q.1 != p) := by
    unfold save_connection_record at hsave
    rcases hsp : fs.statePath with _ | b
    · rw [hsp] at hsave
      rcases hlook : fs.files.lookup p with _ | old <;> rw [hlook] at hsave <;>
        cases hsave <;> exact ⟨_, rfl⟩
    · cases b
      · rw [hsp] at hsave
        cases hsave
      · rw [hsp] at hsave
        rcases hlook : fs.files.lookup p with _ | old <;> rw [hlook] at hsave <;>
          cases hsave <;> exact ⟨_, rfl⟩
  obtain ⟨m, hfiles⟩ := hfiles
  have hlook : fs'.files.lookup p = some (FileEntry.mk m (recordLine r)) := by
    rw [hfiles]
    simp [List.lookup]
  have hshape : recordLine r =
      r.host ++ 32 :: (natDecDigits r.port ++ 32 :: (r.bus_id ++ [10])) := by
    simp [recordLine, List.append_assoc, List.singleton_append]
  have htrim : strTrim (recordLine r) =
      r.host ++ 32 :: (natDecDigits r.port ++ 32 :: r.bus_id) := by
    rw [hshape]
    exact strTrim_sandwich r.host (natDecDigits r.port) r.bus_id hh hb hwh hwb
  obtain ⟨hdne, hddig, hdval⟩ := natDecDigits_spec r.port
  have hsplit : splitSpaces (r.host ++ 32 :: (natDecDigits r.port ++ 32 :: r.bus_id)) =
      [r.host, natDecDigits r.port, r.bus_id] := by
    rw [splitSpaces_append _ _ (fun c hc => not_space_of_not_whitespace (hwh c hc))]
    rw [splitSpaces_append _ _ (fun c hc => not_space_of_not_whitespace
      (digit_not_whitespace c (hddig c hc).1 (hddig c hc).2))]
    rw [splitSpaces_no_space _ (fun c hc => not_space_of_not_whitespace (hwb c hc))]
  have halldig : (natDecDigits r.port).all isDecDigit = true := by
    rw [List.all_eq_true]
    intro c hc
    have hcd := hddig c hc
    simp only [isDecDigit, Bool.and_eq_true, decide_eq_true_eq]
    omega
  have hparse : parseRecordLine (r.host ++ 32 :: (natDecDigits r.port ++ 32 :: r.bus_id)) =
      some (r.host, r.port, r.bus_id) := by
    unfold parseRecordLine
    rw [hsplit]
    show (if r.host ≠ [] ∧ natDecDigits r.port ≠ [] ∧ r.bus_id ≠ [] ∧
        (natDecDigits r.port).all isDecDigit = true ∧
        decValue (natDecDigits r.port) < 65536 then
        some (r.host, decValue (natDecDigits r.port), r.bus_id) else none) =
      some (r.host, r.port, r.bus_id)
    rw [if_pos ⟨hh, hdne, hb, halldig, by rw [hdval]; exact hport⟩]
    rw [hdval]
  unfold read_connection_record
  rw [hlook]
  show (match parseRecordLine (strTrim (recordLine r)) with
    | none => Except.error (FsStateError.Parsing p)
    | some (h, q, b) => Except.ok (ConnectionRecord.mk h q b)) = Except.ok r
  rw [htrim, hparse]

/-- C8 counterexample: the record {host: "", port: 3240, bus_id: "1-1"},
whose host and bus id contain no whitespace, saves for port 7, but reading
port 7 back fails to parse instead of returning the triple: trimming eats
the leading separator of the written line " 3240 1-1\x0A", leaving two
fields. -/
theorem C8_record_roundtrip_counterexample :
    (∀ c ∈ (ConnectionRecord.mk [] 3240 [49, 45, 49]).host,
      rustIsWhitespace c = false) ∧
    (∀ c ∈ (ConnectionRecord.mk [] 3240 [49, 45, 49]).bus_id,
      rustIsWhitespace c = false) ∧
    save_connection_record (FsState.mk none 0 []) 7
        (ConnectionRecord.mk [] 3240 [49, 45, 49]) =
      .ok (FsState.mk (some true) 0o700
        [(7, FileEntry.mk 0o700 [32, 51, 50, 52, 48, 32, 49, 45, 49, 10])]) ∧
    read_connection_record
        (FsState.mk (some true) 0o700
          [(7, FileEntry.mk 0o700 [32, 51, 50, 52, 48, 32, 49, 45, 49, 10])]) 7 =
      .error (.Parsing 7) := by
  refine ⟨by decide, by decide, by decide, by decide⟩

/-- Witness for C8 at the spec instance: save(7, {10.0.0.5, 3240, 1-1})
into an empty state, then read(7) returns the identical triple. -/
theorem C8_record_roundtrip_amended_witness :
    read_connection_record
        (FsState.mk (some true) 0o700
          [(7, FileEntry.mk 0o700 (recordLine (ConnectionRecord.mk
            [49, 48, 46, 48, 46, 48, 46, 53] 3240 [49, 45, 49])))]) 7 =
      .ok (ConnectionRecord.mk [49, 48, 46, 48, 46, 48, 46, 53] 3240 [49, 45, 49]) :=
  C8_record_roundtrip_amended (FsState.mk none 0 []) 7
    (ConnectionRecord.mk [49, 48, 46, 48, 46, 48, 46, 53] 3240 [49, 45, 49])
    (by decide) (by decide) (by decide) (by decide) (by decide)
    (FsState.mk (some true) 0o700
      [(7, FileEntry.mk 0o700 (recordLine (ConnectionRecord.mk
        [49, 48, 46, 48, 46, 48, 46, 53] 3240 [49, 45, 49])))])
    (by decide)

/-! ### C9 -/

theorem save_ok_shape (fs : FsState) (p : Nat) (r : ConnectionRecord) (fs' : FsState)
    (hsave : save_connection_record fs p r = .ok fs') :
    fs' = FsState.mk (some true) 0o700
      ((p, match fs.files.lookup p with
          | some old => FileEntry.mk old.mode (recordLine r)
          | none => FileEntry.mk 0o700 (recordLine r)) ::
        fs.files.filter (fun q => q.1 != p)) := by
  unfold save_connection_record at hsave
  rcases hsp : fs.statePath with _ | b
  · rw [hsp] at hsave
    cases hsave
    rfl
  · cases b
    · rw [hsp] at hsave
      cases hsave
    · rw [hsp] at hsave
      cases hsave
      rfl

/-- C9 (amended): every successful save leaves the state directory present
with owner-rwx-only mode 0o700 and the port file containing exactly the
line "host port bus_id\x0A"; a freshly created port file gets creation mode
0o700 — owner-only (no group/other bits) but with the owner execute bit
set, not owner read/write only — while a pre-existing file keeps its mode
(the creation mode is also still subject to the process umask). -/
theorem C9_save_private_file_amended (fs : FsState) (p : Nat)
    (r : ConnectionRecord) :
    ∀ fs', save_connection_record fs p r = .ok fs' →
      fs'.statePath = some true ∧ fs'.dirMode = 0o700 ∧
      ∃ e, fs'.files.lookup p = some e ∧ e.content = recordLine r ∧
        (fs.files.lookup p = none →
          e.mode = 0o700 ∧ e.mode &&& 0o077 = 0 ∧ e.mode &&& 0o100 ≠ 0) ∧
        (∀ old, fs.files.lookup p = some old → e.mode = old.mode) := by
  intro fs' hsave
  rw [save_ok_shape fs p r fs' hsave]
  refine ⟨rfl, rfl, ?_⟩
  rcases hlook : fs.files.lookup p with _ | old
  · refine ⟨FileEntry.mk 0o700 (recordLine r), by simp [List.lookup], rfl,
      fun _ => ⟨rfl, by show (0o700 : Nat) &&& 0o077 = 0; decide,
        by show (0o700 : Nat) &&& 0o100 ≠ 0; decide⟩, ?_⟩
    intro old h
    exact Option.noConfusion h
  · refine ⟨FileEntry.mk old.mode (recordLine r), by simp [List.lookup], rfl, ?_, ?_⟩
    · intro h
      exact Option.noConfusion h
    · intro old2 h
      cases h
      rfl

/-- C9 counterexample: a successful save into an empty state creates the
port file with mode 0o700 — the owner execute bit is set — not with owner
read/write permissions only as the claim states. -/
theorem C9_save_private_file_counterexample :
    save_connection_record (FsState.mk none 0 []) 7
        (ConnectionRecord.mk [104] 3240 [49, 45, 49]) =
      .ok (FsState.mk (some true) 0o700
        [(7, FileEntry.mk 0o700 (recordLine (ConnectionRecord.mk [104] 3240 [49, 45, 49])))]) ∧
    (0o700 : Nat) &&& 0o100 ≠ 0 ∧ (0o700 : Nat) ≠ 0o600 := by
  refine ⟨by decide, by decide, by decide⟩

/-- Witness for C9 saving {h, 3240, 1-1} at port 7 into an empty state. -/
theorem C9_save_private_file_amended_witness :
    (FsState.mk (some true) 0o700
        [(7, FileEntry.mk 0o700
          (recordLine (ConnectionRecord.mk [104] 3240 [49, 45, 49])))]).statePath =
      some true ∧
    (FsState.mk (some true) 0o700
        [(7, FileEntry.mk 0o700
          (recordLine (ConnectionRecord.mk [104] 3240 [49, 45, 49])))]).dirMode = 0o700 ∧
    ∃ e, (FsState.mk (some true) 0o700
        [(7, FileEntry.mk 0o700
          (recordLine (ConnectionRecord.mk [104] 3240 [49, 45, 49])))]).files.lookup 7 =
        some e ∧
      e.content = recordLine (ConnectionRecord.mk [104] 3240 [49, 45, 49]) ∧
      ((FsState.mk none 0 []).files.lookup 7 = none →
        e.mode = 0o700 ∧ e.mode &&& 0o077 = 0 ∧ e.mode &&& 0o100 ≠ 0) ∧
      (∀ old, (FsState.mk none 0 []).files.lookup 7 = some old → e.mode = old.mode) :=
  C9_save_private_file_amended (FsState.mk none 0 []) 7
    (ConnectionRecord.mk [104] 3240 [49, 45, 49])
    (FsState.mk (some true) 0o700
      [(7, FileEntry.mk 0o700
        (recordLine (ConnectionRecord.mk [104] 3240 [49, 45, 49])))])
    (by decide)
